import Mathlib

set_option autoImplicit false

/-!
Shallow embedding of the two lint rules of this repository fragment:
the brace-spacing rule of lib/rules/object-curly-spacing.js, and the
line-end whitespace scanner of lib/rules/no-trailing-spaces.js (present
here only through its test file, hence modelled from the spec).
-/

namespace ObjectCurlySpacing

/-- Source location as the parser reports it: a line and a column. -/
structure Loc where
  line : Nat
  column : Nat
  deriving DecidableEq, Repr

/-- Token of the analyzed buffer: its text `value`, its `loc.start` and
`loc.end` positions, and its `range` start and end offsets in the buffer. -/
structure Token where
  value : String
  startLoc : Loc
  endLoc : Loc
  rangeStart : Nat
  rangeEnd : Nat
  deriving DecidableEq, Repr

/-- Modelled from the spec: the host helper `astUtils.isTokenOnSameLine`
(the file ast-utils.js is not part of this fragment) — the two tokens of a
side lie on the same physical line. -/
def isTokenOnSameLine (left right : Token) : Bool :=
  left.endLoc.line == right.startLoc.line

/-- Modelled from the spec: the host helper `astUtils.isTokenSpaced`
(ast-utils.js is not part of this fragment); per the spec the gap between
two adjacent tokens holds only whitespace, so being spaced reduces to a
non-zero gap between the end of the left token and the start of the right. -/
def isTokenSpaced (left right : Token) : Bool :=
  decide (left.rangeEnd < right.rangeStart)

/-- The four checked construct kinds, the keys of the visitor mapping the
rule returns. -/
inductive NodeType where
  | objectPattern
  | objectExpression
  | importDeclaration
  | exportNamedDeclaration
  deriving DecidableEq, Repr

/-- The `options` record the rule resolves once per analysis
(object-curly-spacing.js lines 54-62). -/
structure ResolvedOptions where
  spaced : Bool
  arraysInObjectsException : Bool
  objectsInObjectsException : Bool
  ObjectPattern : Bool
  ObjectExpression : Bool
  ImportDeclaration : Bool
  ExportNamedDeclaration : Bool
  deriving DecidableEq, Repr

/-- The dynamic lookup `options[nodeType]` at the top of
`validateBraceSpacing`: the per-construct spacing requirement. -/
def ResolvedOptions.forType (o : ResolvedOptions) : NodeType → Bool
  | .objectPattern => o.ObjectPattern
  | .objectExpression => o.ObjectExpression
  | .importDeclaration => o.ImportDeclaration
  | .exportNamedDeclaration => o.ExportNamedDeclaration

/-- A diagnostic emitted through `context.report`: which of the four report
helpers fired, the location it passed, and the boundary-token text it
interpolated into its message. -/
inductive Report where
  | requiredBeginningSpace (loc : Loc) (tokenValue : String)
  | noBeginningSpace (loc : Loc) (tokenValue : String)
  | requiredEndingSpace (loc : Loc) (tokenValue : String)
  | noEndingSpace (loc : Loc) (tokenValue : String)
  deriving DecidableEq, Repr

/-- Helper `reportNoBeginningSpace`: reports at `token.loc.end`. -/
def reportNoBeginningSpace (token : Token) : Report :=
  .noBeginningSpace token.endLoc token.value

/-- Helper `reportNoEndingSpace`: reports at `token.loc.start`. -/
def reportNoEndingSpace (token : Token) : Report :=
  .noEndingSpace token.startLoc token.value

/-- Helper `reportRequiredBeginningSpace`: reports at `token.loc.end`. -/
def reportRequiredBeginningSpace (token : Token) : Report :=
  .requiredBeginningSpace token.endLoc token.value

/-- Helper `reportRequiredEndingSpace`: reports at `token.loc.start`. -/
def reportRequiredEndingSpace (token : Token) : Report :=
  .requiredEndingSpace token.startLoc token.value

/-- Whether a report came from the opening (beginning) side of the pair. -/
def Report.isBeginningSide : Report → Bool
  | .requiredBeginningSpace _ _ => true
  | .noBeginningSpace _ _ => true
  | .requiredEndingSpace _ _ => false
  | .noEndingSpace _ _ => false

/-- The opening-side part of a report list. -/
def beginningSide (reports : List Report) : List Report :=
  reports.filter Report.isBeginningSide

/-- The closing-side part of a report list. -/
def endingSide (reports : List Report) : List Report :=
  reports.filter (fun r => !r.isBeginningSide)

/-- The closing-side requirement computed at the top of
`validateBraceSpacing` (lines 122-126): start from the per-construct
`spaced` and invert it when an enabled exception matches the text of the
penultimate token. -/
def closingCurlyBraceMustBeSpaced (options : ResolvedOptions) (spaced : Bool)
    (penultimate : Token) : Bool :=
  if options.arraysInObjectsException && penultimate.value == "]" ||
      options.objectsInObjectsException && penultimate.value == "\x7d" then
    !spaced
  else
    spaced

/-- `validateBraceSpacing` (lines 121-148): check the opening side
(`first`, `second`) against the per-construct requirement and the closing
side (`penultimate`, `last`) against the exception-adjusted requirement,
each side gated on its two tokens sharing a physical line. -/
def validateBraceSpacing (options : ResolvedOptions)
    (first second penultimate last : Token) (nodeType : NodeType) :
    List Report :=
  let spaced := options.forType nodeType
  let closing := closingCurlyBraceMustBeSpaced options spaced penultimate
  let beginningReports :=
    if isTokenOnSameLine first second then
      let firstSpaced := isTokenSpaced first second
      (if spaced && !firstSpaced then [reportRequiredBeginningSpace first] else []) ++
      (if !spaced && firstSpaced then [reportNoBeginningSpace first] else [])
    else []
  let endingReports :=
    if isTokenOnSameLine penultimate last then
      let lastSpaced := isTokenSpaced penultimate last
      (if closing && !lastSpaced then [reportRequiredEndingSpace last] else []) ++
      (if !closing && lastSpaced then [reportNoEndingSpace last] else [])
    else []
  beginningReports ++ endingReports

/-- Modelled from the spec: the host token accessor. The buffer yields an
ordered token sequence; `getToken` fetches the token at an index, and
`none` stands for the null the host returns past either end (the checker
aborts when it dereferences such a null). `getTokenAfter` of the token at
index `i` is the token at `i + 1`, `getTokenBefore` the one at `i - 1`. -/
def getToken (sourceCode : List Token) (i : Nat) : Option Token :=
  sourceCode[i]?

/-- An ObjectExpression or ObjectPattern node: its ordered `properties`
sequence (whose contents the rule never consults) and the indices, in the
token sequence of the buffer, of the first and last tokens of the node
(its braces). -/
structure ObjectNode where
  properties : List Unit
  firstTokenIdx : Nat
  lastTokenIdx : Nat
  deriving DecidableEq, Repr

/-- An import or export specifier: its `type` string and the indices of
its first and last tokens in the token sequence of the buffer. -/
structure Specifier where
  type : String
  firstTokenIdx : Nat
  lastTokenIdx : Nat
  deriving DecidableEq, Repr

/-- An ImportDeclaration node: its ordered `specifiers` sequence. -/
structure ImportDeclarationNode where
  specifiers : List Specifier
  deriving DecidableEq, Repr

/-- An ExportNamedDeclaration node: its ordered `specifiers` sequence. -/
structure ExportNamedDeclarationNode where
  specifiers : List Specifier
  deriving DecidableEq, Repr

/-- `checkForObject` (lines 174-186): return with no diagnostics on an
empty property sequence, otherwise resolve `first`, `last`, `second` and
`penultimate` by token navigation and validate. -/
def checkForObject (sourceCode : List Token) (node : ObjectNode)
    (options : ResolvedOptions) (nodeType : NodeType) :
    Option (List Report) :=
  if node.properties.length == 0 then
    some []
  else do
    let first ← getToken sourceCode node.firstTokenIdx
    let last ← getToken sourceCode node.lastTokenIdx
    let second ← getToken sourceCode (node.firstTokenIdx + 1)
    if node.lastTokenIdx == 0 then none
    else do
      let penultimate ← getToken sourceCode (node.lastTokenIdx - 1)
      some (validateBraceSpacing options first second penultimate last nodeType)

/-- `checkForObjectPattern` (lines 155-157): proxy to `checkForObject`. -/
def checkForObjectPattern (sourceCode : List Token) (node : ObjectNode)
    (options : ResolvedOptions) : Option (List Report) :=
  checkForObject sourceCode node options NodeType.objectPattern

/-- `checkForObjectExpression` (lines 164-166): proxy to `checkForObject`. -/
def checkForObjectExpression (sourceCode : List Token) (node : ObjectNode)
    (options : ResolvedOptions) : Option (List Report) :=
  checkForObject sourceCode node options NodeType.objectExpression

/-- The shared tail of `checkForImport` (lines 209-220) and
`checkForExport` (lines 236-247): `first` is the token before the chosen
first specifier, `last` the token after the last specifier — stepping one
token further when that token is a trailing comma — and `second` and
`penultimate` are the neighbours of `first` and `last`. -/
def specifierBraceSpacing (sourceCode : List Token)
    (firstSpecifier lastSpecifier : Specifier) (options : ResolvedOptions)
    (nodeType : NodeType) : Option (List Report) :=
  if firstSpecifier.firstTokenIdx == 0 then none
  else do
    let firstIdx := firstSpecifier.firstTokenIdx - 1
    let first ← getToken sourceCode firstIdx
    let lastTok ← getToken sourceCode (lastSpecifier.lastTokenIdx + 1)
    let lastIdx :=
      if lastTok.value == "," then lastSpecifier.lastTokenIdx + 2
      else lastSpecifier.lastTokenIdx + 1
    let last ← getToken sourceCode lastIdx
    let second ← getToken sourceCode (firstIdx + 1)
    let penultimate ← getToken sourceCode (lastIdx - 1)
    some (validateBraceSpacing options first second penultimate last nodeType)

/-- `checkForImport` (lines 193-221): skip on zero specifiers; skip when
the last specifier is not an ImportSpecifier; when the first specifier is
not an ImportSpecifier (a default-import binding), resolve the opening
boundary from the second specifier instead. -/
def checkForImport (sourceCode : List Token) (node : ImportDeclarationNode)
    (options : ResolvedOptions) : Option (List Report) :=
  if node.specifiers.length == 0 then
    some []
  else do
    let firstSpecifier ← node.specifiers[0]?
    let lastSpecifier ← node.specifiers[node.specifiers.length - 1]?
    if lastSpecifier.type != "ImportSpecifier" then
      some []
    else if firstSpecifier.type != "ImportSpecifier" then do
      let firstSpecifier ← node.specifiers[1]?
      specifierBraceSpacing sourceCode firstSpecifier lastSpecifier options
        NodeType.importDeclaration
    else
      specifierBraceSpacing sourceCode firstSpecifier lastSpecifier options
        NodeType.importDeclaration

/-- `checkForExport` (lines 228-248): skip on zero specifiers, otherwise
resolve the boundaries from the first and last specifiers and validate. -/
def checkForExport (sourceCode : List Token) (node : ExportNamedDeclarationNode)
    (options : ResolvedOptions) : Option (List Report) :=
  if node.specifiers.length == 0 then
    some []
  else do
    let firstSpecifier ← node.specifiers[0]?
    let lastSpecifier ← node.specifiers[node.specifiers.length - 1]?
    specifierBraceSpacing sourceCode firstSpecifier lastSpecifier options
      NodeType.exportNamedDeclaration

/-- The raw second options object of the rule, `context.options[1]`: each
entry may be absent. The two exception entries are booleans, the four
per-construct overrides are "always"/"never" strings. -/
structure RawOptions1 where
  arraysInObjects : Option Bool
  objectsInObjects : Option Bool
  ObjectPattern : Option String
  ObjectExpression : Option String
  ImportDeclaration : Option String
  ExportNamedDeclaration : Option String
  deriving DecidableEq, Repr

/-- `isSpaced` (lines 28-30): an option value asks for spacing exactly
when it is the string "always". -/
def isSpaced (value : Option String) : Bool :=
  value == some "always"

/-- `isOptionSet` (lines 39-41): with no second options object the answer
is false; otherwise the entry must be strictly equal to the negation of
the global `spaced` setting. -/
def isOptionSet (options1 : Option RawOptions1) (spaced : Bool)
    (option : RawOptions1 → Option Bool) : Bool :=
  match options1 with
  | some opts => option opts == some (!spaced)
  | none => false

/-- `getTypeDefault` (lines 50-52): when the second options object holds
an entry for the construct, that entry decides; otherwise fall back to the
global `spaced` setting. -/
def getTypeDefault (options1 : Option RawOptions1) (spaced : Bool)
    (option : RawOptions1 → Option String) : Bool :=
  match options1 with
  | some opts =>
    match option opts with
    | some value => isSpaced (some value)
    | none => spaced
  | none => spaced

/-- The resolution of `options` (lines 21 and 54-62) from the raw
positional options of the context. -/
def resolveOptions (options0 : Option String) (options1 : Option RawOptions1) :
    ResolvedOptions :=
  let spaced := isSpaced options0
  { spaced := spaced
    arraysInObjectsException := isOptionSet options1 spaced (·.arraysInObjects)
    objectsInObjectsException := isOptionSet options1 spaced (·.objectsInObjects)
    ObjectPattern := getTypeDefault options1 spaced (·.ObjectPattern)
    ObjectExpression := getTypeDefault options1 spaced (·.ObjectExpression)
    ImportDeclaration := getTypeDefault options1 spaced (·.ImportDeclaration)
    ExportNamedDeclaration := getTypeDefault options1 spaced (·.ExportNamedDeclaration) }

end ObjectCurlySpacing

namespace NoTrailingSpaces

/-!
The implementation file lib/rules/no-trailing-spaces.js is not part of
this fragment (only its test file is), so the line-end whitespace scanner
is modelled from the spec, section 4.3.
-/

/-- Modelled from the spec: horizontal whitespace, a space or a tab. -/
def isHorizontalWhitespace (c : Char) : Bool :=
  c == ' ' || c == '\t'

/-- Modelled from the spec: split the buffer into physical lines at line
terminators; the terminator belongs to no line. -/
def splitPhysicalLines : List Char → List (List Char)
  | [] => [[]]
  | c :: rest =>
    if c == '\n' then
      [] :: splitPhysicalLines rest
    else
      match splitPhysicalLines rest with
      | [] => [[c]]
      | line :: lines => (c :: line) :: lines

/-- Modelled from the spec: the length of the maximal trailing run of
space/tab characters of a line. -/
def trailingRunLength (line : List Char) : Nat :=
  (line.reverse.takeWhile isHorizontalWhitespace).length

/-- A diagnostic of the scanner: 1-based line, and 1-based column of the
first whitespace character of the trailing run. -/
structure TrailingReport where
  line : Nat
  column : Nat
  deriving DecidableEq, Repr

/-- Modelled from the spec: the per-line step of the scanner. A line that
is entirely whitespace is skipped when `skipBlankLines` is enabled;
otherwise a non-empty trailing run yields one violation whose column is
the 1-based offset of the first whitespace character of the run. -/
def lineReport (skipBlankLines : Bool) (lineNumber : Nat) (line : List Char) :
    Option TrailingReport :=
  let run := trailingRunLength line
  if skipBlankLines && line.all isHorizontalWhitespace then
    none
  else if run == 0 then
    none
  else
    some ⟨lineNumber, line.length - run + 1⟩

/-- Modelled from the spec: the whole-buffer scan, one `lineReport` per
physical line, lines numbered from 1. -/
def scanTrailingSpaces (skipBlankLines : Bool) (buffer : List Char) :
    List TrailingReport :=
  (splitPhysicalLines buffer).enum.filterMap
    (fun p => lineReport skipBlankLines (p.1 + 1) p.2)

/-- Modelled from the spec: the proposed fix of one reported line removes
exactly its trailing run. -/
def fixLine (line : List Char) : List Char :=
  line.take (line.length - trailingRunLength line)

/-- Modelled from the spec: applying every proposed fix — each reported
line has its trailing run removed, every other character and every line
terminator stays unchanged. -/
def applyFixes (skipBlankLines : Bool) (buffer : List Char) : List Char :=
  List.intercalate ['\n']
    ((splitPhysicalLines buffer).enum.map
      (fun p =>
        if (lineReport skipBlankLines (p.1 + 1) p.2).isSome then fixLine p.2
        else p.2))

/-- The single-quote character, used to spell test inputs. -/
def singleQuote : Char := Char.ofNat 39

/-- The input buffer of the C8 scenario. -/
def bufferVarAB : List Char := "var a = 5; \n b = 3; ".toList

/-- The input buffer of the C9 scenario. -/
def bufferVarBar : List Char :=
  "var a = ".toList ++ [singleQuote] ++ "bar".toList ++ [singleQuote] ++
    ";  \n \n\t".toList

end NoTrailingSpaces

namespace ObjectCurlySpacing

/-- The opening-side reports of `validateBraceSpacing` do not depend on the
closing side: a closed form. -/
lemma beginningSide_validate (options : ResolvedOptions)
    (first second penultimate last : Token) (nodeType : NodeType) :
    beginningSide (validateBraceSpacing options first second penultimate last nodeType) =
      if isTokenOnSameLine first second then
        (if options.forType nodeType && !isTokenSpaced first second then
          [reportRequiredBeginningSpace first] else []) ++
        (if !(options.forType nodeType) && isTokenSpaced first second then
          [reportNoBeginningSpace first] else [])
      else [] := by
  cases hl1 : isTokenOnSameLine first second <;>
  cases hl2 : isTokenOnSameLine penultimate last <;>
  cases hb : options.forType nodeType <;>
  cases hs1 : isTokenSpaced first second <;>
  cases hc : closingCurlyBraceMustBeSpaced options (options.forType nodeType) penultimate <;>
  cases hs2 : isTokenSpaced penultimate last <;>
  simp [validateBraceSpacing, beginningSide, Report.isBeginningSide, hl1, hl2, hb, hs1, hc,
    hs2, reportRequiredBeginningSpace, reportNoBeginningSpace, reportRequiredEndingSpace,
    reportNoEndingSpace]

/-- The closing-side reports of `validateBraceSpacing` do not depend on the
opening side: a closed form. -/
lemma endingSide_validate (options : ResolvedOptions)
    (first second penultimate last : Token) (nodeType : NodeType) :
    endingSide (validateBraceSpacing options first second penultimate last nodeType) =
      if isTokenOnSameLine penultimate last then
        (if closingCurlyBraceMustBeSpaced options (options.forType nodeType) penultimate &&
            !isTokenSpaced penultimate last then
          [reportRequiredEndingSpace last] else []) ++
        (if !closingCurlyBraceMustBeSpaced options (options.forType nodeType) penultimate &&
            isTokenSpaced penultimate last then
          [reportNoEndingSpace last] else [])
      else [] := by
  cases hl1 : isTokenOnSameLine first second <;>
  cases hl2 : isTokenOnSameLine penultimate last <;>
  cases hb : options.forType nodeType <;>
  cases hs1 : isTokenSpaced first second <;>
  cases hc : closingCurlyBraceMustBeSpaced options (options.forType nodeType) penultimate <;>
  cases hs2 : isTokenSpaced penultimate last <;>
  simp [validateBraceSpacing, endingSide, Report.isBeginningSide, hl1, hl2, hb, hs1, hc,
    hs2, reportRequiredBeginningSpace, reportNoBeginningSpace, reportRequiredEndingSpace,
    reportNoEndingSpace]

/-- C1: for each delimiter-pair side whose two boundary tokens share a
physical line, `validateBraceSpacing` follows the four-outcome table: a
required-but-missing space yields exactly the space-required report of that
side, a forbidden-but-present space yields exactly the no-space report, the
two agreeing cases yield nothing, and each side emits at most one report. -/
theorem four_outcomes_per_side (options : ResolvedOptions)
    (first second penultimate last : Token) (nodeType : NodeType) :
    (isTokenOnSameLine first second = true →
      ((options.forType nodeType = true ∧ isTokenSpaced first second = false ↔
          beginningSide (validateBraceSpacing options first second penultimate last nodeType) =
            [reportRequiredBeginningSpace first]) ∧
        (options.forType nodeType = false ∧ isTokenSpaced first second = true ↔
          beginningSide (validateBraceSpacing options first second penultimate last nodeType) =
            [reportNoBeginningSpace first]) ∧
        (options.forType nodeType = isTokenSpaced first second →
          beginningSide (validateBraceSpacing options first second penultimate last nodeType) = []) ∧
        (beginningSide (validateBraceSpacing options first second penultimate last nodeType)).length ≤ 1)) ∧
    (isTokenOnSameLine penultimate last = true →
      ((closingCurlyBraceMustBeSpaced options (options.forType nodeType) penultimate = true ∧
            isTokenSpaced penultimate last = false ↔
          endingSide (validateBraceSpacing options first second penultimate last nodeType) =
            [reportRequiredEndingSpace last]) ∧
        (closingCurlyBraceMustBeSpaced options (options.forType nodeType) penultimate = false ∧
            isTokenSpaced penultimate last = true ↔
          endingSide (validateBraceSpacing options first second penultimate last nodeType) =
            [reportNoEndingSpace last]) ∧
        (closingCurlyBraceMustBeSpaced options (options.forType nodeType) penultimate =
            isTokenSpaced penultimate last →
          endingSide (validateBraceSpacing options first second penultimate last nodeType) = []) ∧
        (endingSide (validateBraceSpacing options first second penultimate last nodeType)).length ≤ 1)) := by
  constructor
  · intro h
    rw [beginningSide_validate, h]
    cases hb : options.forType nodeType <;> cases hs1 : isTokenSpaced first second <;>
      simp [hb, hs1, reportRequiredBeginningSpace, reportNoBeginningSpace]
  · intro h
    rw [endingSide_validate, h]
    cases hc : closingCurlyBraceMustBeSpaced options (options.forType nodeType) penultimate <;>
      cases hs2 : isTokenSpaced penultimate last <;>
      simp [hc, hs2, reportRequiredEndingSpace, reportNoEndingSpace]

/-- C3: a token pair that spans a line break is never flagged — with the
opening tokens on different lines the opening side emits nothing, and with
the closing tokens on different lines the closing side emits nothing. -/
theorem cross_line_never_flagged (options : ResolvedOptions)
    (first second penultimate last : Token) (nodeType : NodeType) :
    (isTokenOnSameLine first second = false →
      beginningSide (validateBraceSpacing options first second penultimate last nodeType) = []) ∧
    (isTokenOnSameLine penultimate last = false →
      endingSide (validateBraceSpacing options first second penultimate last nodeType) = []) := by
  constructor
  · intro h
    rw [beginningSide_validate, h]
    simp
  · intro h
    rw [endingSide_validate, h]
    simp

/-- C2: every handler returns without a diagnostic when the inner-element
sequence of the construct is empty — `checkForObject` on zero properties,
`checkForImport` and `checkForExport` on zero specifiers. -/
theorem empty_construct_never_reports :
    (∀ (sourceCode : List Token) (options : ResolvedOptions) (node : ObjectNode)
      (nodeType : NodeType), node.properties = [] →
      checkForObject sourceCode node options nodeType = some []) ∧
    (∀ (sourceCode : List Token) (options : ResolvedOptions)
      (node : ImportDeclarationNode), node.specifiers = [] →
      checkForImport sourceCode node options = some []) ∧
    (∀ (sourceCode : List Token) (options : ResolvedOptions)
      (node : ExportNamedDeclarationNode), node.specifiers = [] →
      checkForExport sourceCode node options = some []) := by
  refine ⟨?_, ?_, ?_⟩
  · intro sourceCode options node nodeType h
    simp [checkForObject, h]
  · intro sourceCode options node h
    simp [checkForImport, h]
  · intro sourceCode options node h
    simp [checkForExport, h]

/-- C4: the closing-side requirement is the negation of the per-construct
requirement exactly when an enabled exception matches the text of the
penultimate token, and is the per-construct requirement unchanged in every
other case. -/
theorem closing_requirement_inversion (options : ResolvedOptions)
    (penultimate : Token) (nodeType : NodeType) :
    (closingCurlyBraceMustBeSpaced options (options.forType nodeType) penultimate =
        !(options.forType nodeType) ↔
      options.arraysInObjectsException = true ∧ penultimate.value = "]" ∨
        options.objectsInObjectsException = true ∧ penultimate.value = "\x7d") ∧
    (¬(options.arraysInObjectsException = true ∧ penultimate.value = "]" ∨
        options.objectsInObjectsException = true ∧ penultimate.value = "\x7d") →
      closingCurlyBraceMustBeSpaced options (options.forType nodeType) penultimate =
        options.forType nodeType) := by
  by_cases hv1 : penultimate.value = "]" <;>
  by_cases hv2 : penultimate.value = "\x7d" <;>
  cases ha : options.arraysInObjectsException <;>
  cases ho : options.objectsInObjectsException <;>
  cases hb : options.forType nodeType <;>
  simp_all [closingCurlyBraceMustBeSpaced, beq_iff_eq]

/-- C5: two configurations that agree on everything except the two
exception flags produce identical opening-side diagnostics; the exceptions
can reach only the closing-side check. -/
theorem exceptions_affect_only_closing_side (opts1 opts2 : ResolvedOptions)
    (first second penultimate last : Token) (nodeType : NodeType)
    (_hspaced : opts1.spaced = opts2.spaced)
    (hop : opts1.ObjectPattern = opts2.ObjectPattern)
    (hoe : opts1.ObjectExpression = opts2.ObjectExpression)
    (hid : opts1.ImportDeclaration = opts2.ImportDeclaration)
    (hed : opts1.ExportNamedDeclaration = opts2.ExportNamedDeclaration) :
    beginningSide (validateBraceSpacing opts1 first second penultimate last nodeType) =
      beginningSide (validateBraceSpacing opts2 first second penultimate last nodeType) := by
  have hft : opts1.forType nodeType = opts2.forType nodeType := by
    cases nodeType <;> simp [ResolvedOptions.forType, hop, hoe, hid, hed]
  rw [beginningSide_validate, beginningSide_validate, hft]

/-- The "always" configuration with no exception enabled, a sample input. -/
def sampleOptionsAlways : ResolvedOptions :=
  ⟨true, false, false, true, true, true, true⟩

/-- The "always" configuration with both exceptions enabled, a sample input. -/
def sampleOptionsAlwaysExc : ResolvedOptions :=
  ⟨true, true, true, true, true, true, true⟩

/-- Sample boundary tokens of a one-line object literal. -/
def sampleOpenBrace : Token := ⟨"\x7b", ⟨1, 0⟩, ⟨1, 1⟩, 0, 1⟩

/-- Sample inner token after the opening brace. -/
def sampleIdent : Token := ⟨"x", ⟨1, 1⟩, ⟨1, 2⟩, 1, 2⟩

/-- Sample penultimate token, a closing square bracket. -/
def sampleCloseBracket : Token := ⟨"]", ⟨1, 2⟩, ⟨1, 3⟩, 2, 3⟩

/-- Sample closing brace token. -/
def sampleCloseBrace : Token := ⟨"\x7d", ⟨1, 4⟩, ⟨1, 5⟩, 4, 5⟩

/-- Witness for C5 at a concrete input: flipping both exception flags of
the "always" configuration leaves the opening-side reports unchanged. -/
theorem exceptions_affect_only_closing_side_witness :
    beginningSide (validateBraceSpacing sampleOptionsAlways sampleOpenBrace sampleIdent
        sampleCloseBracket sampleCloseBrace NodeType.objectExpression) =
      beginningSide (validateBraceSpacing sampleOptionsAlwaysExc sampleOpenBrace sampleIdent
        sampleCloseBracket sampleCloseBrace NodeType.objectExpression) :=
  exceptions_affect_only_closing_side sampleOptionsAlways sampleOptionsAlwaysExc
    sampleOpenBrace sampleIdent sampleCloseBracket sampleCloseBrace
    NodeType.objectExpression rfl rfl rfl rfl rfl

/-- C6: `checkForImport` silently skips — returning with no diagnostic and
no failure — on an empty specifier list and when the last specifier is not
an ImportSpecifier; and when a leading non-ImportSpecifier (a default
binding) precedes named specifiers, the boundaries are resolved from the
second specifier. -/
theorem import_skip_and_default_binding :
    (∀ (sourceCode : List Token) (options : ResolvedOptions),
      checkForImport sourceCode ⟨[]⟩ options = some []) ∧
    (∀ (sourceCode : List Token) (options : ResolvedOptions)
      (node : ImportDeclarationNode) (lastSpecifier : Specifier),
      node.specifiers[node.specifiers.length - 1]? = some lastSpecifier →
      lastSpecifier.type ≠ "ImportSpecifier" →
      checkForImport sourceCode node options = some []) ∧
    (∀ (sourceCode : List Token) (options : ResolvedOptions)
      (s0 s1 : Specifier) (rest : List Specifier) (lastSpecifier : Specifier),
      (s0 :: s1 :: rest)[(s0 :: s1 :: rest).length - 1]? = some lastSpecifier →
      s0.type ≠ "ImportSpecifier" →
      lastSpecifier.type = "ImportSpecifier" →
      checkForImport sourceCode ⟨s0 :: s1 :: rest⟩ options =
        specifierBraceSpacing sourceCode s1 lastSpecifier options
          NodeType.importDeclaration) := by
  refine ⟨?_, ?_, ?_⟩
  · intro sourceCode options
    simp [checkForImport]
  · intro sourceCode options node lastSpecifier hlast htype
    obtain ⟨specs⟩ := node
    cases specs with
    | nil => simp [checkForImport]
    | cons a tl =>
      simp at hlast
      simp [checkForImport, hlast, htype]
  · intro sourceCode options s0 s1 rest lastSpecifier hlast hs0 hl
    simp at hlast
    simp [checkForImport, hlast, hs0, hl]

/-- C7: when the token right after the last specifier is a comma, the
closing boundary `last` is the token one further (the closing delimiter at
index `lastTokenIdx + 2`), and the penultimate token is the one before
that delimiter — the comma is never used as the closing boundary. -/
theorem trailing_comma_closing_boundary (sourceCode : List Token)
    (firstSpecifier lastSpecifier : Specifier) (options : ResolvedOptions)
    (nodeType : NodeType) (first second commaTok last : Token)
    (h0 : firstSpecifier.firstTokenIdx ≠ 0)
    (hfirst : getToken sourceCode (firstSpecifier.firstTokenIdx - 1) = some first)
    (hsecond : getToken sourceCode (firstSpecifier.firstTokenIdx - 1 + 1) = some second)
    (hcomma : getToken sourceCode (lastSpecifier.lastTokenIdx + 1) = some commaTok)
    (hval : commaTok.value = ",")
    (hlast : getToken sourceCode (lastSpecifier.lastTokenIdx + 2) = some last) :
    specifierBraceSpacing sourceCode firstSpecifier lastSpecifier options nodeType =
      some (validateBraceSpacing options first second commaTok last nodeType) := by
  have hpen : getToken sourceCode (lastSpecifier.lastTokenIdx + 2 - 1) = some commaTok := hcomma
  simp [specifierBraceSpacing, h0, hfirst, hsecond, hcomma, hval, hlast, hpen]

/-- The token sequence of a one-line import declaration with a trailing
comma inside the braces. -/
def sampleImportTokens : List Token :=
  [⟨"import", ⟨1, 0⟩, ⟨1, 6⟩, 0, 6⟩,
    ⟨"\x7b", ⟨1, 7⟩, ⟨1, 8⟩, 7, 8⟩,
    ⟨"a", ⟨1, 9⟩, ⟨1, 10⟩, 9, 10⟩,
    ⟨",", ⟨1, 10⟩, ⟨1, 11⟩, 10, 11⟩,
    ⟨"b", ⟨1, 12⟩, ⟨1, 13⟩, 12, 13⟩,
    ⟨",", ⟨1, 13⟩, ⟨1, 14⟩, 13, 14⟩,
    ⟨"\x7d", ⟨1, 15⟩, ⟨1, 16⟩, 15, 16⟩]

/-- Witness for C7 at a concrete input: with specifiers on tokens 2 and 4
and a trailing comma at token 5, the boundaries are tokens 1, 2, 5 and 6. -/
theorem trailing_comma_closing_boundary_witness :
    specifierBraceSpacing sampleImportTokens ⟨"ImportSpecifier", 2, 2⟩
        ⟨"ImportSpecifier", 4, 4⟩ sampleOptionsAlways NodeType.importDeclaration =
      some (validateBraceSpacing sampleOptionsAlways
        ⟨"\x7b", ⟨1, 7⟩, ⟨1, 8⟩, 7, 8⟩ ⟨"a", ⟨1, 9⟩, ⟨1, 10⟩, 9, 10⟩
        ⟨",", ⟨1, 13⟩, ⟨1, 14⟩, 13, 14⟩ ⟨"\x7d", ⟨1, 15⟩, ⟨1, 16⟩, 15, 16⟩
        NodeType.importDeclaration) :=
  trailing_comma_closing_boundary sampleImportTokens ⟨"ImportSpecifier", 2, 2⟩
    ⟨"ImportSpecifier", 4, 4⟩ sampleOptionsAlways NodeType.importDeclaration
    ⟨"\x7b", ⟨1, 7⟩, ⟨1, 8⟩, 7, 8⟩ ⟨"a", ⟨1, 9⟩, ⟨1, 10⟩, 9, 10⟩
    ⟨",", ⟨1, 13⟩, ⟨1, 14⟩, 13, 14⟩ ⟨"\x7d", ⟨1, 15⟩, ⟨1, 16⟩, 15, 16⟩
    (by decide) (by decide) (by decide) (by decide) rfl (by decide)

/-- C10: a resolved exception flag is true exactly when the second options
object is present and its entry strictly equals the negation of the global
`spaced` setting; an entry equal to the global setting, or an absent
entry, leaves the exception disabled. -/
theorem exception_option_resolution (options0 : Option String)
    (options1 : Option RawOptions1) :
    ((resolveOptions options0 options1).arraysInObjectsException = true ↔
      ∃ o, options1 = some o ∧ o.arraysInObjects = some (!isSpaced options0)) ∧
    ((resolveOptions options0 options1).objectsInObjectsException = true ↔
      ∃ o, options1 = some o ∧ o.objectsInObjects = some (!isSpaced options0)) ∧
    (∀ o, options1 = some o →
      o.arraysInObjects = some (isSpaced options0) ∨ o.arraysInObjects = none →
      (resolveOptions options0 options1).arraysInObjectsException = false) ∧
    (∀ o, options1 = some o →
      o.objectsInObjects = some (isSpaced options0) ∨ o.objectsInObjects = none →
      (resolveOptions options0 options1).objectsInObjectsException = false) := by
  cases options1 with
  | none => simp [resolveOptions, isOptionSet]
  | some o =>
    refine ⟨?_, ?_, ?_, ?_⟩
    · simp [resolveOptions, isOptionSet, beq_iff_eq]
    · simp [resolveOptions, isOptionSet, beq_iff_eq]
    · rintro o' ho (hsame | hnone) <;>
      · injection ho with ho
        subst ho
        cases hs : isSpaced options0 <;>
          simp_all [resolveOptions, isOptionSet]
    · rintro o' ho (hsame | hnone) <;>
      · injection ho with ho
        subst ho
        cases hs : isSpaced options0 <;>
          simp_all [resolveOptions, isOptionSet]

end ObjectCurlySpacing

namespace NoTrailingSpaces

/-- C8: with skipBlankLines disabled, the scan of the buffer
"var a = 5; \n b = 3; " reports exactly at line 1 column 11 and line 2
column 8, and applying the proposed fixes removes exactly the trailing
runs, keeping every other character and the line terminator. -/
theorem scan_example_two_reports :
    scanTrailingSpaces false bufferVarAB = [⟨1, 11⟩, ⟨2, 8⟩] ∧
      applyFixes false bufferVarAB = "var a = 5;\n b = 3;".toList := by
  constructor <;> decide

/-- C9: with skipBlankLines enabled a line made entirely of space/tab
characters is never reported, and the buffer "var a = quote bar quote ;"
followed by two blank lines yields exactly one report, at line 1
column 15. -/
theorem blank_lines_skipped :
    (∀ (lineNumber : Nat) (line : List Char),
      line.all isHorizontalWhitespace = true →
      lineReport true lineNumber line = none) ∧
      scanTrailingSpaces true bufferVarBar = [⟨1, 15⟩] := by
  refine ⟨?_, by decide⟩
  intro lineNumber line h
  simp [lineReport, h]

end NoTrailingSpaces
